import Mathlib

/-!
# Verification of the lastodash curve-grouping and chart-composition core

This file gives a shallow embedding of the curve-group resolution, axis
assignment and pagination logic of `lastodash.py`, and of the curve-section
generation of the second revision `lastodash_2.py`, and proves the stated
properties of that logic.

Modelling conventions:
* a loaded LAS log is a list of curves (ordered, looked up by mnemonic,
  first match wins — mirroring the ordered, dict-like curve section of the
  LAS parser) together with the depth column;
* plotly trace/axis/figure dictionaries become structures whose optional
  keys are `Option` fields (`none` = key absent);
* Python code that can raise (`dict[key]` on a missing key, list indexing
  out of range, mutating a `None` axis) is embedded in `Except String`,
  with `.error` marking the raising executions;
* curve samples are an abstract type `α`: the core never inspects sample
  values, it only moves them around.
-/

set_option maxRecDepth 8000

namespace Lastodash

/-- A curve of the loaded log: identified by its mnemonic, carrying a unit
(with sentinel "NONE" for unitless), a description and the data samples. -/
structure Curve (α : Type) where
  mnemonic : String
  original_mnemonic : String
  unit : String
  descr : String
  data : List α
deriving DecidableEq

/-- The loaded log: the ordered curve section plus the depth column
(`las.depth_ft`). -/
structure Log (α : Type) where
  curves : List (Curve α)
  depth_ft : List α
deriving DecidableEq

/-- Mnemonic lookup in the curve section (`las.curves[m]` / `m in las.curves`):
first curve whose mnemonic matches. -/
def Log.find? (las : Log α) (m : String) : Option (Curve α) :=
  las.curves.find? (fun c => c.mnemonic == m)

/-- A plotly scatter line style (`dict(color=..., dash=..., width=...)`). -/
structure Line where
  color : String
  dash : Option String := none
  width : Nat := 1
deriving DecidableEq

def SCATTER_LINE_LINE_BLACK : Line := { color := "black", width := 1 }
def SCATTER_LINE_LINE_RED : Line := { color := "red", width := 1 }
def SCATTER_LINE_LINE_GREEN : Line := { color := "green", width := 1 }
def SCATTER_LINE_LINE_BLUE : Line := { color := "blue", width := 1 }
def SCATTER_LINE_LINE_MAGENTA : Line := { color := "magenta", width := 1 }

def SCATTER_LINE_DASH_BLACK : Line := { color := "black", dash := some "dash", width := 1 }
def SCATTER_LINE_DASH_RED : Line := { color := "red", dash := some "dash", width := 1 }
def SCATTER_LINE_DASH_GREEN : Line := { color := "green", dash := some "dash", width := 1 }
def SCATTER_LINE_DASH_BLUE : Line := { color := "blue", dash := some "dash", width := 1 }
def SCATTER_LINE_DASH_MAGENTA : Line := { color := "magenta", dash := some "dash", width := 1 }

def SCATTER_LINE_DOT_BLACK : Line := { color := "black", dash := some "dot", width := 1 }
def SCATTER_LINE_DOT_RED : Line := { color := "red", dash := some "dot", width := 1 }
def SCATTER_LINE_DOT_GREEN : Line := { color := "green", dash := some "dot", width := 1 }
def SCATTER_LINE_DOT_BLUE : Line := { color := "blue", dash := some "dot", width := 1 }
def SCATTER_LINE_DOT_MAGENTA : Line := { color := "magenta", dash := some "dot", width := 1 }

def SCATTER_LINE_DASHDOT_BLACK : Line := { color := "black", dash := some "dashdot", width := 1 }
def SCATTER_LINE_DASHDOT_RED : Line := { color := "red", dash := some "dashdot", width := 1 }
def SCATTER_LINE_DASHDOT_GREEN : Line := { color := "green", dash := some "dashdot", width := 1 }
def SCATTER_LINE_DASHDOT_BLUE : Line := { color := "blue", dash := some "dashdot", width := 1 }
def SCATTER_LINE_DASHDOT_MAGENTA : Line := { color := "magenta", dash := some "dashdot", width := 1 }

/-- A y- or x-axis dictionary: optional keys `title`, `type`, `side`,
`showgrid` (absent key = `none`). -/
structure Axis where
  title : Option String := none
  axisType : Option String := none
  side : Option String := none
  showgrid : Option Bool := none
deriving DecidableEq

/-- A `go.Scatter` trace as built by `build_trace`: `x` is only filled in
later by `build_graph`. -/
structure Trace (α : Type) where
  x : Option (List α) := none
  y : List α
  mode : String
  name : String
  line : Line
  yaxisKey : String
deriving DecidableEq

/-- The figure produced by `build_graph`: the `dcc.Graph` id, the trace
list and the `go.Layout` fields (constant cosmetics plus the axes). -/
structure Graph (α : Type) where
  id : String
  data : List (Trace α)
  hovermode : String := "x"
  paper_bgcolor : String := "rgba(0,0,0,0)"
  plot_bgcolor : String := "rgba(0,0,0,0)"
  showlegend : Bool := true
  xaxis : Axis
  yaxis : Option Axis
  yaxis2 : Option Axis := none
deriving DecidableEq

/-- Python `build_trace(curve, line=..., yaxis=...)`: one scatter trace plus the
axis dict titled `mnemonic [unit]`, the unit suffix dropped when the unit
is the sentinel "NONE". -/
def build_trace (curve : Curve α) (line : Line) (yaxis : String) : Trace α × Axis :=
  let key := curve.original_mnemonic
  let data := curve.data
  let unit := if curve.unit != "NONE" then " [" ++ curve.unit ++ "]" else ""
  let descr := curve.descr
  ({ y := data, mode := "lines", name := descr, line := line, yaxisKey := yaxis },
   { title := some (key ++ unit) })

/-- Python `build_graph(id, las, data, yaxis, yaxis2)`: returns no graph for an
empty trace list; otherwise fills in the shared depth x-axis on every
trace and, when a second y-axis is present, moves the *first* y-axis to
the right side and suppresses its gridlines (the Python mutates `yaxis`,
raising if it is `None`, which the `.error` case records). -/
def build_graph (id : String) (las : Log α) (data : List (Trace α))
    (yaxis : Option Axis) (yaxis2 : Option Axis) : Except String (Option (Graph α)) :=
  if data.isEmpty then
    .ok none
  else
    let x := las.depth_ft
    let data := data.map (fun trace => { trace with x := some x })
    let xaxis : Axis := { title := some "depth [ft]" }
    match yaxis2 with
    | some a2 =>
      match yaxis with
      | none => .error "TypeError: NoneType does not support item assignment"
      | some a =>
        .ok (some { id := id, data := data, xaxis := xaxis,
                    yaxis := some { a with side := some "right", showgrid := some false },
                    yaxis2 := some a2 })
    | none =>
      .ok (some { id := id, data := data, xaxis := xaxis, yaxis := yaxis, yaxis2 := none })

/-- Python `build_graph_dgr(las)`: gamma/porosity group — `BTVPVS` (magenta,
primary) then `DGRC` (green, secondary if the primary slot is taken,
otherwise promoted to primary).  The four cases enumerate the reachable
states of the Python `if`-chain. -/
def build_graph_dgr (las : Log α) : Except String (Option (Graph α)) :=
  match las.find? "BTVPVS", las.find? "DGRC" with
  | none, none =>
    build_graph "las-curves-dgr" las [] none none
  | some b, none =>
    let btvpvs := build_trace b SCATTER_LINE_LINE_MAGENTA "y"
    build_graph "las-curves-dgr" las [btvpvs.1] (some btvpvs.2) none
  | none, some d =>
    let dgrc := build_trace d SCATTER_LINE_LINE_GREEN "y"
    build_graph "las-curves-dgr" las [dgrc.1] (some dgrc.2) none
  | some b, some d =>
    let btvpvs := build_trace b SCATTER_LINE_LINE_MAGENTA "y"
    let dgrc := build_trace d SCATTER_LINE_LINE_GREEN "y2"
    build_graph "las-curves-dgr" las [btvpvs.1, dgrc.1]
      (some btvpvs.2) (some dgrc.2)

/-- The body of the `for key, line in zip(rp_keys, rp_lines)` loop of
`build_graph_rp`: collect a trace for each present resistivity curve, in
key order, remembering whether any was found (`has_rp`).  `yaxisTaken`
tells whether the `EWXT` axis already claimed the primary slot. -/
def build_graph_rp_loop (las : Log α) (yaxisTaken : Bool) :
    List (String × Line) → List (Trace α) × Bool
  | [] => ([], false)
  | (key, line) :: rest =>
    let acc := build_graph_rp_loop las yaxisTaken rest
    match las.find? key with
    | some curve =>
      ((build_trace curve line (if yaxisTaken then "y2" else "y")).1 :: acc.1, true)
    | none => acc

/-- The shared resistivity axis `rp_axis` of `build_graph_rp`: fixed title
"RxxP [ohmm]", scale forced logarithmic. -/
def rp_axis : Axis := { title := some "RxxP [ohmm]", axisType := some "log" }

/-- The table `zip(rp_keys, rp_lines)` of `build_graph_rp`: the four resistivity
mnemonics with their line styles. -/
def rp_keys_lines : List (String × Line) :=
  [("R09P", SCATTER_LINE_DASHDOT_GREEN), ("R15P", SCATTER_LINE_LINE_BLACK),
   ("R27P", SCATTER_LINE_DOT_BLUE), ("R39P", SCATTER_LINE_DASH_RED)]

/-- Python `build_graph_rp(las)`: resistivity group — `EWXT` (magenta dash-dot,
primary, scale forced logarithmic) plus the four `RxxP` curves sharing
one log-scaled axis titled "RxxP [ohmm]", secondary if `EWXT` took the
primary slot and promoted to primary otherwise. -/
def build_graph_rp (las : Log α) : Except String (Option (Graph α)) :=
  let ewxt : List (Trace α) × Option Axis :=
    match las.find? "EWXT" with
    | some curve =>
      let ewxt := build_trace curve SCATTER_LINE_DASHDOT_MAGENTA "y"
      ([ewxt.1], some { ewxt.2 with axisType := some "log" })
    | none => ([], none)
  let yaxis := ewxt.2
  let loop := build_graph_rp_loop las yaxis.isSome rp_keys_lines
  let data := ewxt.1 ++ loop.1
  let has_rp := loop.2
  if has_rp then
    if yaxis.isSome then
      build_graph "las-curves-rp" las data yaxis (some rp_axis)
    else
      build_graph "las-curves-rp" las data (some rp_axis) none
  else
    build_graph "las-curves-rp" las data yaxis none

/-- Python `build_graph_ald(las)`: density group — `ALDCLC` (black dash, primary)
then `ALCDLC` (red, secondary if the primary slot is taken, otherwise
promoted). -/
def build_graph_ald (las : Log α) : Except String (Option (Graph α)) :=
  match las.find? "ALDCLC", las.find? "ALCDLC" with
  | none, none =>
    build_graph "las-curves-ald" las [] none none
  | some a, none =>
    let aldclc := build_trace a SCATTER_LINE_DASH_BLACK "y"
    build_graph "las-curves-ald" las [aldclc.1] (some aldclc.2) none
  | none, some c =>
    let alcdlc := build_trace c SCATTER_LINE_LINE_RED "y"
    build_graph "las-curves-ald" las [alcdlc.1] (some alcdlc.2) none
  | some a, some c =>
    let aldclc := build_trace a SCATTER_LINE_DASH_BLACK "y"
    let alcdlc := build_trace c SCATTER_LINE_LINE_RED "y2"
    build_graph "las-curves-ald" las [aldclc.1, alcdlc.1]
      (some aldclc.2) (some alcdlc.2)

/-- Python `build_graph_ctn(las)`: neutron group — `TNPS` (blue) alone on the
primary axis. -/
def build_graph_ctn (las : Log α) : Except String (Option (Graph α)) :=
  match las.find? "TNPS" with
  | none =>
    build_graph "las-curves-ctn" las [] none none
  | some t =>
    let tnps := build_trace t SCATTER_LINE_LINE_BLUE "y"
    build_graph "las-curves-ctn" las [tnps.1] (some tnps.2) none

/-- Python `build_graph_bat(las)`: sonic/caliper group — `BTCSS` (magenta,
primary) then `BTCS` (green, secondary if the primary slot is taken,
otherwise promoted). -/
def build_graph_bat (las : Log α) : Except String (Option (Graph α)) :=
  match las.find? "BTCSS", las.find? "BTCS" with
  | none, none =>
    build_graph "las-curves-bat" las [] none none
  | some s, none =>
    let btcss := build_trace s SCATTER_LINE_LINE_MAGENTA "y"
    build_graph "las-curves-bat" las [btcss.1] (some btcss.2) none
  | none, some c =>
    let btcs := build_trace c SCATTER_LINE_LINE_GREEN "y"
    build_graph "las-curves-bat" las [btcs.1] (some btcs.2) none
  | some s, some c =>
    let btcss := build_trace s SCATTER_LINE_LINE_MAGENTA "y"
    let btcs := build_trace c SCATTER_LINE_LINE_GREEN "y2"
    build_graph "las-curves-bat" las [btcss.1, btcs.1]
      (some btcss.2) (some btcs.2)

/-- The accumulation loop of `paginate`: `page` is the page being filled; a page
is flushed as soon as it already holds at least `items_per_page` items
*before* the next item is placed, and a non-empty trailing page is kept. -/
def paginateAux (items_per_page : Nat) : List γ → List γ → List (List γ)
  | page, [] => if page.isEmpty then [] else [page]
  | page, item :: items =>
    if items_per_page ≤ page.length then
      page :: paginateAux items_per_page [item] items
    else
      paginateAux items_per_page (page ++ [item]) items

/-- Python `paginate(items, items_per_page)`: chunk `items` into consecutive pages
of `items_per_page` items, the trailing page possibly shorter. -/
def paginate (items : List γ) (items_per_page : Nat) : List (List γ) :=
  paginateAux items_per_page [] items

/-- The graph-collecting part of `build_section_curves(las)`: the five group
charts in fixed order, the absent ones (`None`) dropped. -/
def build_charts (las : Log α) : Except String (List (Graph α)) := do
  let dgr ← build_graph_dgr las
  let rp ← build_graph_rp las
  let ald ← build_graph_ald las
  let ctn ← build_graph_ctn las
  let bat ← build_graph_bat las
  return ([dgr, rp, ald, ctn, bat].filterMap id)

/-- Python `build_section_curves(las)`: the collected charts paginated two per
page. -/
def build_section_curves (las : Log α) : Except String (List (List (Graph α))) := do
  let graphs ← build_charts las
  return paginate graphs 2

/-!
## The second revision (`lastodash_2.py`)

Its `generate_curves` builds one subplot figure and indexes curves and
trace positions without membership or bounds tests; the raising executions
are the `.error` cases below.
-/

/-- Does the regular expression `R[0-9][0-9]P` match at the head of the
character list? -/
def rpMatchAt : List Char → Bool
  | 'R' :: a :: b :: 'P' :: _ => a.isDigit && b.isDigit
  | _ => false

/-- Scanning `re.search` over the character list: try every suffix. -/
def rpSearchChars : List Char → Bool
  | [] => false
  | c :: rest => rpMatchAt (c :: rest) || rpSearchChars rest

/-- Python `re.search(r'R[0-9][0-9]P', x)` as a Boolean on strings. -/
def rpSearch (x : String) : Bool :=
  rpSearchChars x.data

/-- A trace of the second revision's subplot figure: `go.Scatter` with the
curve on x, depth on y, and the x-axis reference assigned by
`append_trace` (and later rewired by position). -/
structure Trace2 (α : Type) where
  x : List α
  y : List α
  name : String
  lineWidth : Nat := 1
  xaxisKey : String
deriving DecidableEq

/-- An x-axis dictionary of the subplot layout. -/
structure Axis2 where
  showgrid : Option Bool := none
  zeroline : Option Bool := none
  axisType : Option String := none
  overlaying : Option String := none
  anchor : Option String := none
  side : Option String := none
deriving DecidableEq

/-- The subplot figure: trace list plus the layout's x-axis dictionaries
(keyed "xaxis1", "xaxis2", ...) and the global layout knobs. -/
structure Fig2 (α : Type) where
  data : List (Trace2 α)
  layout : List (String × Axis2)
  height : Option Nat := none
  hovermode : Option String := none
deriving DecidableEq

/-- Python `tools.make_subplots(rows=1, cols=n, shared_yaxes=True)`: empty data,
one default x-axis per column. -/
def make_subplots (cols : Nat) : Fig2 α :=
  { data := [], layout := (List.range cols).map (fun i => ("xaxis" ++ toString (i + 1), {})) }

/-- Python `fig['layout']['xaxisK'].update(...)`: merge into the axis stored at
`key` (no-op when the key is missing, which the callers never hit for the
subplot axes 1..5). -/
def layout_update (layout : List (String × Axis2)) (key : String) (f : Axis2 → Axis2) :
    List (String × Axis2) :=
  layout.map (fun kv => if kv.1 == key then (kv.1, f kv.2) else kv)

/-- Python `fig['layout']['xaxisK'] = axis`: overwrite the entry at `key`, or
append a new one. -/
def layout_set (layout : List (String × Axis2)) (key : String) (a : Axis2) :
    List (String × Axis2) :=
  if layout.any (fun kv => kv.1 == key) then
    layout.map (fun kv => if kv.1 == key then (kv.1, a) else kv)
  else
    layout ++ [(key, a)]

/-- Python `fig['data'][i]['xaxis'] = key`: rewire the trace at position `i`,
raising `IndexError` when the figure holds at most `i` traces. -/
def set_trace_xaxis (data : List (Trace2 α)) (i : Nat) (key : String) :
    Except String (List (Trace2 α)) :=
  if h : i < data.length then
    .ok (data.set i { data.get ⟨i, h⟩ with xaxisKey := key })
  else
    .error "IndexError: list index out of range"

/-- One iteration of the inner loop of `generate_curves`: look up the
column's curve and the `DEPT` curve (raising `KeyError` when either is
absent), append the trace to subplot column `i+1` and update that
column's x-axis (log scale exactly for the resistivity plot's columns). -/
def gcStep (lf : Log α) (rp_cols : List String) (i : Nat) (fig : Fig2 α) (column : String) :
    Except String (Fig2 α) :=
  match lf.find? column with
  | none => .error ("KeyError: " ++ column)
  | some curve =>
    match lf.find? "DEPT" with
    | none => .error "KeyError: DEPT"
    | some ycurve =>
      let trace : Trace2 α :=
        { x := curve.data, y := ycurve.data, name := column, lineWidth := 1,
          xaxisKey := "x" ++ toString (i + 1) }
      let fig := { fig with data := fig.data ++ [trace] }
      let axisType := if rp_cols.contains column then "log" else "linear"
      let upd := fun (a : Axis2) =>
        { a with showgrid := some false, zeroline := some false, axisType := some axisType }
      .ok { fig with layout := layout_update fig.layout ("xaxis" ++ toString (i + 1)) upd }

/-- The inner `for column in plots[i]` loop, propagating the first error. -/
def gcInner (lf : Log α) (rp_cols : List String) (i : Nat) :
    Fig2 α → List String → Except String (Fig2 α)
  | fig, [] => .ok fig
  | fig, column :: rest =>
    match gcStep lf rp_cols i fig column with
    | .ok fig2 => gcInner lf rp_cols i fig2 rest
    | .error e => .error e

/-- The outer `for i in range(len(plots))` loop over the indexed plots. -/
def gcOuter (lf : Log α) (rp_cols : List String) :
    Fig2 α → List (Nat × List String) → Except String (Fig2 α)
  | fig, [] => .ok fig
  | fig, (i, plot) :: rest =>
    match gcInner lf rp_cols i fig plot with
    | .ok fig2 => gcOuter lf rp_cols fig2 rest
    | .error e => .error e

/-- Python `cols = list(lf.curves.keys())` followed by the resistivity filter of
`generate_curves`: the columns equal to `EWXT` or matching `R[0-9][0-9]P`. -/
def gcRpCols (lf : Log α) : List String :=
  (lf.curves.map (fun c => c.mnemonic)).filter (fun x => x == "EWXT" || rpSearch x)

/-- The five hard-coded plots of `generate_curves` (the second one filtered
from the log's own columns). -/
def gcPlots (lf : Log α) : List (List String) :=
  [["BTVPVS", "DGRC"], gcRpCols lf, ["ALCDLC", "ALDCLC"], ["TNPS"], ["BTCSS", "BTCS"]]

/-- Python `generate_curves()` of the second revision: five hard-coded plots (the
resistivity one filtered from the log's own columns), traces appended
per column with no membership test, then traces at fixed positions 1, 6,
8 and 11 rewired onto four overlay axes. -/
def generate_curves (lf : Log α) : Except String (Fig2 α) :=
  let rp_cols := gcRpCols lf
  let plots := gcPlots lf
  match gcOuter lf rp_cols (make_subplots plots.length) plots.enum with
  | .error e => .error e
  | .ok fig =>
    let fig := { fig with height := some 800, hovermode := some "y" }
    match set_trace_xaxis fig.data 1 "x6" with
    | .error e => .error e
    | .ok d1 =>
      match set_trace_xaxis d1 6 "x7" with
      | .error e => .error e
      | .ok d2 =>
        match set_trace_xaxis d2 8 "x8" with
        | .error e => .error e
        | .ok d3 =>
          match set_trace_xaxis d3 11 "x9" with
          | .error e => .error e
          | .ok d4 =>
            let fig := { fig with data := d4 }
            let ax6 : Axis2 := { overlaying := some "x1", anchor := some "y", side := some "top" }
            let ax7 : Axis2 := { overlaying := some "x2", anchor := some "y", side := some "top" }
            let ax8 : Axis2 := { overlaying := some "x3", anchor := some "y", side := some "top" }
            let ax9 : Axis2 := { overlaying := some "x5", anchor := some "y", side := some "top" }
            let fig := { fig with layout := layout_set fig.layout "xaxis6" ax6 }
            let fig := { fig with layout := layout_set fig.layout "xaxis7" ax7 }
            let fig := { fig with layout := layout_set fig.layout "xaxis8" ax8 }
            let fig := { fig with layout := layout_set fig.layout "xaxis9" ax9 }
            .ok fig

/-!
## Concrete fixtures

Concrete logs used to instantiate the general theorems and to exhibit
counterexamples.  Samples are `Int` (the core never inspects them).
-/

/-- A concrete curve whose lookup key and displayed mnemonic agree. -/
def mkCurve (m u : String) : Curve Int :=
  { mnemonic := m, original_mnemonic := m, unit := u, descr := "curve " ++ m, data := [1, 2] }

/-- Both gamma/porosity candidates present. -/
def logBoth : Log Int :=
  { curves := [mkCurve "BTVPVS" "ft", mkCurve "DGRC" "gAPI"], depth_ft := [100, 200] }

/-- Only the secondary candidate of each two-curve group present. -/
def logPromoted : Log Int :=
  { curves := [mkCurve "DGRC" "gAPI", mkCurve "ALCDLC" "g/cm3", mkCurve "BTCS" "us/ft"],
    depth_ft := [100, 200] }

/-- Both candidates of each two-curve group present. -/
def logPairs : Log Int :=
  { curves := [mkCurve "BTVPVS" "ft", mkCurve "DGRC" "gAPI", mkCurve "ALDCLC" "g/cm3",
               mkCurve "ALCDLC" "g/cm3", mkCurve "BTCSS" "us/ft", mkCurve "BTCS" "us/ft"],
    depth_ft := [100] }

/-- The worked example of the specification: `{BTVPVS, DGRC, TNPS}`. -/
def logC8 : Log Int :=
  { curves := [mkCurve "BTVPVS" "ft", mkCurve "DGRC" "gAPI", mkCurve "TNPS" "NONE"],
    depth_ft := [100, 200] }

/-- A resistivity-flavoured log: `EWXT` plus two of the four `RxxP`. -/
def logRp : Log Int :=
  { curves := [mkCurve "EWXT" "ohmm", mkCurve "R09P" "ohmm", mkCurve "R27P" "ohmm"],
    depth_ft := [100, 200] }

/-- A completely curve-less log. -/
def logEmpty : Log Int := { curves := [], depth_ft := [] }

/-- Is any of the four resistivity mnemonics present? -/
def rpAnyPresent (las : Log α) : Bool :=
  (las.find? "R09P").isSome || (las.find? "R15P").isSome ||
    (las.find? "R27P").isSome || (las.find? "R39P").isSome

/-- The traces the resistivity loop collects: one per present `RxxP`
curve, in declared key order, all referencing the same y-axis. -/
def rpTraces (las : Log α) (b : Bool) : List (Trace α) :=
  rp_keys_lines.filterMap (fun kl =>
    (las.find? kl.1).map (fun c => (build_trace c kl.2 (if b then "y2" else "y")).1))

/-- The mnemonics `generate_curves` (second revision) indexes without a
membership test: the seven hard-coded plot columns plus the `DEPT`
y-values curve. -/
def generate_curves_required : List String :=
  ["BTVPVS", "DGRC", "ALCDLC", "ALDCLC", "TNPS", "BTCSS", "BTCS", "DEPT"]

/-!
## Basic lemmas about `build_graph`
-/

theorem build_graph_nil (i : String) (las : Log α) (y y2 : Option Axis) :
    build_graph i las [] y y2 = .ok none := rfl

theorem build_graph_cons_noy2 (i : String) (las : Log α) (t : Trace α) (ts : List (Trace α))
    (y : Option Axis) :
    build_graph i las (t :: ts) y none =
      .ok (some { id := i, data := (t :: ts).map (fun tr => { tr with x := some las.depth_ft }),
                  xaxis := { title := some "depth [ft]" }, yaxis := y, yaxis2 := none }) := rfl

theorem build_graph_cons_y2 (i : String) (las : Log α) (t : Trace α) (ts : List (Trace α))
    (a a2 : Axis) :
    build_graph i las (t :: ts) (some a) (some a2) =
      .ok (some { id := i, data := (t :: ts).map (fun tr => { tr with x := some las.depth_ft }),
                  xaxis := { title := some "depth [ft]" },
                  yaxis := some { a with side := some "right", showgrid := some false },
                  yaxis2 := some a2 }) := rfl

/-- Function `build_graph` succeeds whenever the secondary axis is absent or the
primary one is populated (the only call shapes the five group builders
produce). -/
theorem build_graph_ok_of (i : String) (las : Log α) (d : List (Trace α))
    (y y2 : Option Axis) (h : y2 = none ∨ y.isSome) :
    ∃ r, build_graph i las d y y2 = .ok r := by
  rcases d with _ | ⟨t, ts⟩
  · exact ⟨none, build_graph_nil i las y y2⟩
  · rcases y2 with _ | a2
    · exact ⟨_, build_graph_cons_noy2 i las t ts y⟩
    · rcases y with _ | a
      · rcases h with h | h
        · exact absurd h (by simp)
        · exact absurd h (by simp)
      · exact ⟨_, build_graph_cons_y2 i las t ts a a2⟩

/-- A produced graph carries the id the builder passed in. -/
theorem build_graph_id (i : String) (las : Log α) (d : List (Trace α))
    (y y2 : Option Axis) (g : Graph α) (h : build_graph i las d y y2 = .ok (some g)) :
    g.id = i := by
  rcases d with _ | ⟨t, ts⟩
  · rw [build_graph_nil] at h
    exact absurd h (by simp)
  · rcases y2 with _ | a2
    · rw [build_graph_cons_noy2] at h
      cases h
      rfl
    · rcases y with _ | a
      · exact absurd h (by simp [build_graph])
      · rw [build_graph_cons_y2] at h
        cases h
        rfl

/-- Function `build_graph` only reads the log through its depth column. -/
theorem build_graph_depth_congr (i : String) (las1 las2 : Log α) (d : List (Trace α))
    (y y2 : Option Axis) (h : las1.depth_ft = las2.depth_ft) :
    build_graph i las1 d y y2 = build_graph i las2 d y y2 := by
  unfold build_graph
  rw [h]

/-!
## Per-group lemmas
-/

/-- The resistivity loop collects, in declared key order, one trace per
present curve, all on the same y-axis reference, and reports whether any
key was present. -/
theorem build_graph_rp_loop_eq (las : Log α) (b : Bool) (l : List (String × Line)) :
    build_graph_rp_loop las b l =
      (l.filterMap (fun kl =>
         (las.find? kl.1).map (fun c => (build_trace c kl.2 (if b then "y2" else "y")).1)),
       l.any (fun kl => (las.find? kl.1).isSome)) := by
  induction l with
  | nil => rfl
  | cons kl rest ih =>
    rcases kl with ⟨key, line⟩
    simp only [build_graph_rp_loop, ih]
    cases h : las.find? key <;> simp [h]

theorem build_graph_dgr_ok (las : Log α) : ∃ r, build_graph_dgr las = .ok r := by
  unfold build_graph_dgr
  cases hB : las.find? "BTVPVS" <;> cases hD : las.find? "DGRC" <;> exact ⟨_, rfl⟩

theorem build_graph_ald_ok (las : Log α) : ∃ r, build_graph_ald las = .ok r := by
  unfold build_graph_ald
  cases hA : las.find? "ALDCLC" <;> cases hC : las.find? "ALCDLC" <;> exact ⟨_, rfl⟩

theorem build_graph_ctn_ok (las : Log α) : ∃ r, build_graph_ctn las = .ok r := by
  unfold build_graph_ctn
  cases hT : las.find? "TNPS" <;> exact ⟨_, rfl⟩

theorem build_graph_bat_ok (las : Log α) : ∃ r, build_graph_bat las = .ok r := by
  unfold build_graph_bat
  cases hS : las.find? "BTCSS" <;> cases hC : las.find? "BTCS" <;> exact ⟨_, rfl⟩

/-- Function `build_graph_rp` when `EWXT` is absent: the loop runs with the primary
slot free, and the shared resistivity axis (when any `RxxP` is present)
is promoted to the primary slot. -/
theorem build_graph_rp_eq_of_none (las : Log α) (hE : las.find? "EWXT" = none) :
    build_graph_rp las =
      if (build_graph_rp_loop las false rp_keys_lines).2 then
        build_graph "las-curves-rp" las (build_graph_rp_loop las false rp_keys_lines).1
          (some rp_axis) none
      else
        build_graph "las-curves-rp" las (build_graph_rp_loop las false rp_keys_lines).1
          none none := by
  unfold build_graph_rp
  rw [hE]
  rfl

/-- Function `build_graph_rp` when `EWXT` is present: its trace leads on the primary
axis (scale forced logarithmic) and the shared resistivity axis, when
populated, is the secondary one. -/
theorem build_graph_rp_eq_of_some (las : Log α) (c : Curve α)
    (hE : las.find? "EWXT" = some c) :
    build_graph_rp las =
      if (build_graph_rp_loop las true rp_keys_lines).2 then
        build_graph "las-curves-rp" las
          ((build_trace c SCATTER_LINE_DASHDOT_MAGENTA "y").1 ::
            (build_graph_rp_loop las true rp_keys_lines).1)
          (some { (build_trace c SCATTER_LINE_DASHDOT_MAGENTA "y").2 with axisType := some "log" })
          (some rp_axis)
      else
        build_graph "las-curves-rp" las
          ((build_trace c SCATTER_LINE_DASHDOT_MAGENTA "y").1 ::
            (build_graph_rp_loop las true rp_keys_lines).1)
          (some { (build_trace c SCATTER_LINE_DASHDOT_MAGENTA "y").2 with axisType := some "log" })
          none := by
  unfold build_graph_rp
  rw [hE]
  rfl

theorem build_graph_rp_ok (las : Log α) : ∃ r, build_graph_rp las = .ok r := by
  cases hE : las.find? "EWXT" with
  | none =>
    rw [build_graph_rp_eq_of_none las hE]
    split
    · exact build_graph_ok_of _ _ _ _ _ (Or.inl rfl)
    · exact build_graph_ok_of _ _ _ _ _ (Or.inl rfl)
  | some c =>
    rw [build_graph_rp_eq_of_some las c hE]
    split
    · exact build_graph_ok_of _ _ _ _ _ (Or.inr rfl)
    · exact build_graph_ok_of _ _ _ _ _ (Or.inl rfl)

/-!
## The group builders read the log only through lookup and depth
-/

theorem build_graph_rp_loop_congr (las1 las2 : Log α) (b : Bool) (l : List (String × Line))
    (h : ∀ m, las1.find? m = las2.find? m) :
    build_graph_rp_loop las1 b l = build_graph_rp_loop las2 b l := by
  induction l with
  | nil => rfl
  | cons kl rest ih =>
    rcases kl with ⟨key, line⟩
    simp only [build_graph_rp_loop, ih, h key]

theorem build_graph_dgr_congr (las1 las2 : Log α)
    (h : ∀ m, las1.find? m = las2.find? m) (hd : las1.depth_ft = las2.depth_ft) :
    build_graph_dgr las1 = build_graph_dgr las2 := by
  have hbg : ∀ (i : String) (d : List (Trace α)) (y y2 : Option Axis),
      build_graph i las1 d y y2 = build_graph i las2 d y y2 :=
    fun i d y y2 => build_graph_depth_congr i las1 las2 d y y2 hd
  unfold build_graph_dgr
  rw [h "BTVPVS", h "DGRC"]
  cases las2.find? "BTVPVS" <;> cases las2.find? "DGRC" <;> simp only [hbg]

theorem build_graph_rp_congr (las1 las2 : Log α)
    (h : ∀ m, las1.find? m = las2.find? m) (hd : las1.depth_ft = las2.depth_ft) :
    build_graph_rp las1 = build_graph_rp las2 := by
  have hbg : ∀ (i : String) (d : List (Trace α)) (y y2 : Option Axis),
      build_graph i las1 d y y2 = build_graph i las2 d y y2 :=
    fun i d y y2 => build_graph_depth_congr i las1 las2 d y y2 hd
  have hloop : ∀ (b : Bool) (l : List (String × Line)),
      build_graph_rp_loop las1 b l = build_graph_rp_loop las2 b l :=
    fun b l => build_graph_rp_loop_congr las1 las2 b l h
  unfold build_graph_rp
  rw [h "EWXT"]
  simp only [hloop, hbg]

theorem build_graph_ald_congr (las1 las2 : Log α)
    (h : ∀ m, las1.find? m = las2.find? m) (hd : las1.depth_ft = las2.depth_ft) :
    build_graph_ald las1 = build_graph_ald las2 := by
  have hbg : ∀ (i : String) (d : List (Trace α)) (y y2 : Option Axis),
      build_graph i las1 d y y2 = build_graph i las2 d y y2 :=
    fun i d y y2 => build_graph_depth_congr i las1 las2 d y y2 hd
  unfold build_graph_ald
  rw [h "ALDCLC", h "ALCDLC"]
  cases las2.find? "ALDCLC" <;> cases las2.find? "ALCDLC" <;> simp only [hbg]

theorem build_graph_ctn_congr (las1 las2 : Log α)
    (h : ∀ m, las1.find? m = las2.find? m) (hd : las1.depth_ft = las2.depth_ft) :
    build_graph_ctn las1 = build_graph_ctn las2 := by
  have hbg : ∀ (i : String) (d : List (Trace α)) (y y2 : Option Axis),
      build_graph i las1 d y y2 = build_graph i las2 d y y2 :=
    fun i d y y2 => build_graph_depth_congr i las1 las2 d y y2 hd
  unfold build_graph_ctn
  rw [h "TNPS"]
  cases las2.find? "TNPS" <;> simp only [hbg]

theorem build_graph_bat_congr (las1 las2 : Log α)
    (h : ∀ m, las1.find? m = las2.find? m) (hd : las1.depth_ft = las2.depth_ft) :
    build_graph_bat las1 = build_graph_bat las2 := by
  have hbg : ∀ (i : String) (d : List (Trace α)) (y y2 : Option Axis),
      build_graph i las1 d y y2 = build_graph i las2 d y y2 :=
    fun i d y y2 => build_graph_depth_congr i las1 las2 d y y2 hd
  unfold build_graph_bat
  rw [h "BTCSS", h "BTCS"]
  cases las2.find? "BTCSS" <;> cases las2.find? "BTCS" <;> simp only [hbg]

/-!
## Produced graphs carry their group's id
-/

theorem build_graph_dgr_id (las : Log α) (g : Graph α)
    (h : build_graph_dgr las = .ok (some g)) : g.id = "las-curves-dgr" := by
  cases hB : las.find? "BTVPVS" <;> cases hD : las.find? "DGRC" <;>
    simp only [build_graph_dgr, hB, hD] at h <;>
    exact build_graph_id _ _ _ _ _ _ h

theorem build_graph_rp_id (las : Log α) (g : Graph α)
    (h : build_graph_rp las = .ok (some g)) : g.id = "las-curves-rp" := by
  cases hE : las.find? "EWXT" with
  | none =>
    rw [build_graph_rp_eq_of_none las hE] at h
    split at h <;> exact build_graph_id _ _ _ _ _ _ h
  | some c =>
    rw [build_graph_rp_eq_of_some las c hE] at h
    split at h <;> exact build_graph_id _ _ _ _ _ _ h

theorem build_graph_ald_id (las : Log α) (g : Graph α)
    (h : build_graph_ald las = .ok (some g)) : g.id = "las-curves-ald" := by
  cases hA : las.find? "ALDCLC" <;> cases hC : las.find? "ALCDLC" <;>
    simp only [build_graph_ald, hA, hC] at h <;>
    exact build_graph_id _ _ _ _ _ _ h

theorem build_graph_ctn_id (las : Log α) (g : Graph α)
    (h : build_graph_ctn las = .ok (some g)) : g.id = "las-curves-ctn" := by
  cases hT : las.find? "TNPS" <;>
    simp only [build_graph_ctn, hT] at h <;>
    exact build_graph_id _ _ _ _ _ _ h

theorem build_graph_bat_id (las : Log α) (g : Graph α)
    (h : build_graph_bat las = .ok (some g)) : g.id = "las-curves-bat" := by
  cases hS : las.find? "BTCSS" <;> cases hC : las.find? "BTCS" <;>
    simp only [build_graph_bat, hS, hC] at h <;>
    exact build_graph_id _ _ _ _ _ _ h

/-!
## Composing the five groups
-/

theorem build_charts_eq (las : Log α) (o1 o2 o3 o4 o5 : Option (Graph α))
    (h1 : build_graph_dgr las = .ok o1) (h2 : build_graph_rp las = .ok o2)
    (h3 : build_graph_ald las = .ok o3) (h4 : build_graph_ctn las = .ok o4)
    (h5 : build_graph_bat las = .ok o5) :
    build_charts las = .ok ([o1, o2, o3, o4, o5].filterMap id) := by
  simp only [build_charts, h1, h2, h3, h4, h5, bind, Except.bind, pure, Except.pure]

theorem build_charts_ok (las : Log α) : ∃ gs, build_charts las = .ok gs := by
  obtain ⟨r1, h1⟩ := build_graph_dgr_ok las
  obtain ⟨r2, h2⟩ := build_graph_rp_ok las
  obtain ⟨r3, h3⟩ := build_graph_ald_ok las
  obtain ⟨r4, h4⟩ := build_graph_ctn_ok las
  obtain ⟨r5, h5⟩ := build_graph_bat_ok las
  exact ⟨_, build_charts_eq las r1 r2 r3 r4 r5 h1 h2 h3 h4 h5⟩

theorem build_section_curves_eq (las : Log α) (gs : List (Graph α))
    (h : build_charts las = .ok gs) :
    build_section_curves las = .ok (paginate gs 2) := by
  simp only [build_section_curves, h, bind, Except.bind, pure, Except.pure]

/-!
## Pagination lemmas
-/

theorem paginateAux_flatten (n : Nat) (l : List γ) :
    ∀ page : List γ, (paginateAux n page l).flatten = page ++ l := by
  induction l with
  | nil => intro page; cases page <;> simp [paginateAux]
  | cons item items ih =>
    intro page
    simp only [paginateAux]
    split
    · simp [ih]
    · simp [ih]

/-- Concatenating the pages gives back the input, for every page size. -/
theorem paginate_flatten (items : List γ) (n : Nat) :
    (paginate items n).flatten = items := by
  simpa using paginateAux_flatten n items []

theorem paginateAux_ne_nil (n : Nat) (l : List γ) :
    ∀ page : List γ, page ≠ [] → paginateAux n page l ≠ [] := by
  induction l with
  | nil =>
    intro page hp
    cases page with
    | nil => exact absurd rfl hp
    | cons p ps => simp [paginateAux]
  | cons item items ih =>
    intro page hp
    simp only [paginateAux]
    split
    · exact List.cons_ne_nil _ _
    · exact ih (page ++ [item]) (by simp)

theorem paginateAux_mem_ne_nil (n : Nat) (hn : 1 ≤ n) (l : List γ) :
    ∀ (page : List γ) (c : List γ), c ∈ paginateAux n page l → c ≠ [] := by
  induction l with
  | nil =>
    intro page c hc
    cases page with
    | nil => simp [paginateAux] at hc
    | cons p ps =>
      simp [paginateAux] at hc
      simp [hc]
  | cons item items ih =>
    intro page c hc
    simp only [paginateAux] at hc
    split at hc
    · next hlen =>
      rcases List.mem_cons.mp hc with rfl | hc2
      · exact List.ne_nil_of_length_pos (by omega)
      · exact ih [item] c hc2
    · exact ih (page ++ [item]) c hc

theorem paginateAux_mem_le (n : Nat) (hn : 1 ≤ n) (l : List γ) :
    ∀ page : List γ, page.length ≤ n → ∀ c ∈ paginateAux n page l, c.length ≤ n := by
  induction l with
  | nil =>
    intro page hp c hc
    cases page with
    | nil => simp [paginateAux] at hc
    | cons p ps =>
      simp [paginateAux] at hc
      simpa [hc] using hp
  | cons item items ih =>
    intro page hp c hc
    simp only [paginateAux] at hc
    split at hc
    · rcases List.mem_cons.mp hc with rfl | hc2
      · exact hp
      · exact ih [item] (by simpa using hn) c hc2
    · next hlen =>
      exact ih (page ++ [item]) (by simp [Nat.succ_le_of_lt (Nat.lt_of_not_le hlen)]) c hc

theorem paginateAux_dropLast (n : Nat) (hn : 1 ≤ n) (l : List γ) :
    ∀ page : List γ, page.length ≤ n →
      ∀ c ∈ (paginateAux n page l).dropLast, c.length = n := by
  induction l with
  | nil =>
    intro page hp c hc
    cases page with
    | nil => simp [paginateAux] at hc
    | cons p ps => simp [paginateAux] at hc
  | cons item items ih =>
    intro page hp c hc
    simp only [paginateAux] at hc
    split at hc
    · next hlen =>
      rw [List.dropLast_cons_of_ne_nil (paginateAux_ne_nil n items [item] (by simp))] at hc
      rcases List.mem_cons.mp hc with rfl | hc2
      · omega
      · exact ih [item] (by simpa using hn) c hc2
    · next hlen =>
      exact ih (page ++ [item]) (by simp [Nat.succ_le_of_lt (Nat.lt_of_not_le hlen)]) c hc

theorem paginateAux_length (n : Nat) (hn : 1 ≤ n) (l : List γ) :
    ∀ page : List γ, page.length ≤ n →
      (paginateAux n page l).length = (page.length + l.length + n - 1) / n := by
  induction l with
  | nil =>
    intro page hp
    cases page with
    | nil =>
      simp [paginateAux, Nat.div_eq_of_lt (by omega : n - 1 < n)]
    | cons p ps =>
      have hlt : ps.length < n := by
        simp only [List.length_cons] at hp
        omega
      simp only [paginateAux, List.isEmpty_cons]
      rw [if_neg (by simp)]
      simp only [List.length_singleton, List.length_cons, List.length_nil]
      rw [show ps.length + 1 + 0 + n - 1 = ps.length + n from by omega,
        Nat.add_div_right _ (by omega), Nat.div_eq_of_lt hlt]
  | cons item items ih =>
    intro page hp
    simp only [paginateAux]
    split
    · next hlen =>
      have hone : ([item] : List γ).length ≤ n := by
        simp only [List.length_cons, List.length_nil]
        omega
      rw [List.length_cons, ih [item] hone,
        show ([item] : List γ).length + items.length + n - 1 = items.length + n from by
          simp only [List.length_cons, List.length_nil]
          omega,
        show page.length + (item :: items).length + n - 1 = (items.length + n) + n from by
          simp only [List.length_cons]
          omega,
        Nat.add_div_right (items.length + n) (show 0 < n from by omega)]
    · next hlen =>
      rw [ih (page ++ [item]) (by
          simp only [List.length_append, List.length_cons, List.length_nil]
          omega),
        show (page ++ [item]).length + items.length + n - 1 =
            page.length + (item :: items).length + n - 1 from by
          simp only [List.length_append, List.length_cons, List.length_nil]
          omega]

theorem paginate_length (items : List γ) (n : Nat) (hn : 1 ≤ n) :
    (paginate items n).length = (items.length + n - 1) / n := by
  simpa using paginateAux_length n hn items [] (by simp)

theorem paginateAux_zero_singleton (l : List γ) :
    ∀ x : γ, paginateAux 0 [x] l = [x] :: l.map (fun i => [i]) := by
  induction l with
  | nil => intro x; rfl
  | cons item items ih =>
    intro x
    simp only [paginateAux]
    rw [if_pos (Nat.zero_le _)]
    simp [ih]

/-- With page size zero, a non-empty input produces a leading empty page
followed by one singleton page per item. -/
theorem paginate_zero (items : List γ) (hne : items ≠ []) :
    paginate items 0 = [] :: items.map (fun i => [i]) := by
  rcases items with _ | ⟨i, rest⟩
  · exact absurd rfl hne
  · simp only [paginate, paginateAux]
    rw [if_pos (Nat.zero_le _), paginateAux_zero_singleton]
    simp

/-!
## Case equations for the two-curve groups and the neutron group
-/

theorem build_graph_dgr_none (las : Log α)
    (hB : las.find? "BTVPVS" = none) (hD : las.find? "DGRC" = none) :
    build_graph_dgr las = .ok none := by
  unfold build_graph_dgr
  rw [hB, hD]
  rfl

theorem build_graph_dgr_primary_only (las : Log α) (b : Curve α)
    (hB : las.find? "BTVPVS" = some b) (hD : las.find? "DGRC" = none) :
    build_graph_dgr las =
      .ok (some
        { id := "las-curves-dgr",
          data := [{ (build_trace b SCATTER_LINE_LINE_MAGENTA "y").1 with x := some las.depth_ft }],
          xaxis := { title := some "depth [ft]" },
          yaxis := some (build_trace b SCATTER_LINE_LINE_MAGENTA "y").2,
          yaxis2 := none }) := by
  unfold build_graph_dgr
  rw [hB, hD]
  rfl

theorem build_graph_dgr_promoted (las : Log α) (d : Curve α)
    (hB : las.find? "BTVPVS" = none) (hD : las.find? "DGRC" = some d) :
    build_graph_dgr las =
      .ok (some
        { id := "las-curves-dgr",
          data := [{ (build_trace d SCATTER_LINE_LINE_GREEN "y").1 with x := some las.depth_ft }],
          xaxis := { title := some "depth [ft]" },
          yaxis := some (build_trace d SCATTER_LINE_LINE_GREEN "y").2,
          yaxis2 := none }) := by
  unfold build_graph_dgr
  rw [hB, hD]
  rfl

theorem build_graph_dgr_both (las : Log α) (b d : Curve α)
    (hB : las.find? "BTVPVS" = some b) (hD : las.find? "DGRC" = some d) :
    build_graph_dgr las =
      .ok (some
        { id := "las-curves-dgr",
          data := [{ (build_trace b SCATTER_LINE_LINE_MAGENTA "y").1 with x := some las.depth_ft },
            { (build_trace d SCATTER_LINE_LINE_GREEN "y2").1 with x := some las.depth_ft }],
          xaxis := { title := some "depth [ft]" },
          yaxis := some { (build_trace b SCATTER_LINE_LINE_MAGENTA "y").2 with side := some "right", showgrid := some false },
          yaxis2 := some (build_trace d SCATTER_LINE_LINE_GREEN "y2").2 }) := by
  unfold build_graph_dgr
  rw [hB, hD]
  rfl

theorem build_graph_ald_none (las : Log α)
    (hA : las.find? "ALDCLC" = none) (hC : las.find? "ALCDLC" = none) :
    build_graph_ald las = .ok none := by
  unfold build_graph_ald
  rw [hA, hC]
  rfl

theorem build_graph_ald_primary_only (las : Log α) (a : Curve α)
    (hA : las.find? "ALDCLC" = some a) (hC : las.find? "ALCDLC" = none) :
    build_graph_ald las =
      .ok (some
        { id := "las-curves-ald",
          data := [{ (build_trace a SCATTER_LINE_DASH_BLACK "y").1 with x := some las.depth_ft }],
          xaxis := { title := some "depth [ft]" },
          yaxis := some (build_trace a SCATTER_LINE_DASH_BLACK "y").2,
          yaxis2 := none }) := by
  unfold build_graph_ald
  rw [hA, hC]
  rfl

theorem build_graph_ald_promoted (las : Log α) (c : Curve α)
    (hA : las.find? "ALDCLC" = none) (hC : las.find? "ALCDLC" = some c) :
    build_graph_ald las =
      .ok (some
        { id := "las-curves-ald",
          data := [{ (build_trace c SCATTER_LINE_LINE_RED "y").1 with x := some las.depth_ft }],
          xaxis := { title := some "depth [ft]" },
          yaxis := some (build_trace c SCATTER_LINE_LINE_RED "y").2,
          yaxis2 := none }) := by
  unfold build_graph_ald
  rw [hA, hC]
  rfl

theorem build_graph_ald_both (las : Log α) (a c : Curve α)
    (hA : las.find? "ALDCLC" = some a) (hC : las.find? "ALCDLC" = some c) :
    build_graph_ald las =
      .ok (some
        { id := "las-curves-ald",
          data := [{ (build_trace a SCATTER_LINE_DASH_BLACK "y").1 with x := some las.depth_ft },
            { (build_trace c SCATTER_LINE_LINE_RED "y2").1 with x := some las.depth_ft }],
          xaxis := { title := some "depth [ft]" },
          yaxis := some { (build_trace a SCATTER_LINE_DASH_BLACK "y").2 with side := some "right", showgrid := some false },
          yaxis2 := some (build_trace c SCATTER_LINE_LINE_RED "y2").2 }) := by
  unfold build_graph_ald
  rw [hA, hC]
  rfl

theorem build_graph_bat_none (las : Log α)
    (hS : las.find? "BTCSS" = none) (hC : las.find? "BTCS" = none) :
    build_graph_bat las = .ok none := by
  unfold build_graph_bat
  rw [hS, hC]
  rfl

theorem build_graph_bat_primary_only (las : Log α) (s : Curve α)
    (hS : las.find? "BTCSS" = some s) (hC : las.find? "BTCS" = none) :
    build_graph_bat las =
      .ok (some
        { id := "las-curves-bat",
          data := [{ (build_trace s SCATTER_LINE_LINE_MAGENTA "y").1 with x := some las.depth_ft }],
          xaxis := { title := some "depth [ft]" },
          yaxis := some (build_trace s SCATTER_LINE_LINE_MAGENTA "y").2,
          yaxis2 := none }) := by
  unfold build_graph_bat
  rw [hS, hC]
  rfl

theorem build_graph_bat_promoted (las : Log α) (c : Curve α)
    (hS : las.find? "BTCSS" = none) (hC : las.find? "BTCS" = some c) :
    build_graph_bat las =
      .ok (some
        { id := "las-curves-bat",
          data := [{ (build_trace c SCATTER_LINE_LINE_GREEN "y").1 with x := some las.depth_ft }],
          xaxis := { title := some "depth [ft]" },
          yaxis := some (build_trace c SCATTER_LINE_LINE_GREEN "y").2,
          yaxis2 := none }) := by
  unfold build_graph_bat
  rw [hS, hC]
  rfl

theorem build_graph_bat_both (las : Log α) (s c : Curve α)
    (hS : las.find? "BTCSS" = some s) (hC : las.find? "BTCS" = some c) :
    build_graph_bat las =
      .ok (some
        { id := "las-curves-bat",
          data := [{ (build_trace s SCATTER_LINE_LINE_MAGENTA "y").1 with x := some las.depth_ft },
            { (build_trace c SCATTER_LINE_LINE_GREEN "y2").1 with x := some las.depth_ft }],
          xaxis := { title := some "depth [ft]" },
          yaxis := some { (build_trace s SCATTER_LINE_LINE_MAGENTA "y").2 with side := some "right", showgrid := some false },
          yaxis2 := some (build_trace c SCATTER_LINE_LINE_GREEN "y2").2 }) := by
  unfold build_graph_bat
  rw [hS, hC]
  rfl

theorem build_graph_ctn_none (las : Log α) (hT : las.find? "TNPS" = none) :
    build_graph_ctn las = .ok none := by
  unfold build_graph_ctn
  rw [hT]
  rfl

theorem build_graph_ctn_some (las : Log α) (t : Curve α) (hT : las.find? "TNPS" = some t) :
    build_graph_ctn las =
      .ok (some
        { id := "las-curves-ctn",
          data := [{ (build_trace t SCATTER_LINE_LINE_BLUE "y").1 with x := some las.depth_ft }],
          xaxis := { title := some "depth [ft]" },
          yaxis := some (build_trace t SCATTER_LINE_LINE_BLUE "y").2,
          yaxis2 := none }) := by
  unfold build_graph_ctn
  rw [hT]
  rfl

theorem build_charts_congr (las1 las2 : Log α)
    (h : ∀ m, las1.find? m = las2.find? m) (hd : las1.depth_ft = las2.depth_ft) :
    build_charts las1 = build_charts las2 := by
  unfold build_charts
  rw [build_graph_dgr_congr las1 las2 h hd, build_graph_rp_congr las1 las2 h hd,
    build_graph_ald_congr las1 las2 h hd, build_graph_ctn_congr las1 las2 h hd,
    build_graph_bat_congr las1 las2 h hd]

theorem build_section_curves_congr (las1 las2 : Log α)
    (h : ∀ m, las1.find? m = las2.find? m) (hd : las1.depth_ft = las2.depth_ft) :
    build_section_curves las1 = build_section_curves las2 := by
  unfold build_section_curves
  rw [build_charts_congr las1 las2 h hd]

/-!
## Exactly one chart per producing group
-/

theorem build_charts_count_dgr (las : Log α) (g : Graph α)
    (h : build_graph_dgr las = .ok (some g)) :
    ∃ cs, build_charts las = .ok cs ∧ cs.countP (fun x => x.id == "las-curves-dgr") = 1 := by
  obtain ⟨r2, h2⟩ := build_graph_rp_ok las
  obtain ⟨r3, h3⟩ := build_graph_ald_ok las
  obtain ⟨r4, h4⟩ := build_graph_ctn_ok las
  obtain ⟨r5, h5⟩ := build_graph_bat_ok las
  refine ⟨_, build_charts_eq las (some g) r2 r3 r4 r5 h h2 h3 h4 h5, ?_⟩
  have hg : (g.id == "las-curves-dgr") = true := by
    simp [build_graph_dgr_id las g h]
  have n2 : ∀ x, r2 = some x → (x.id == "las-curves-dgr") = false := by
    intro x hx
    rw [hx] at h2
    simp [build_graph_rp_id las x h2]
  have n3 : ∀ x, r3 = some x → (x.id == "las-curves-dgr") = false := by
    intro x hx
    rw [hx] at h3
    simp [build_graph_ald_id las x h3]
  have n4 : ∀ x, r4 = some x → (x.id == "las-curves-dgr") = false := by
    intro x hx
    rw [hx] at h4
    simp [build_graph_ctn_id las x h4]
  have n5 : ∀ x, r5 = some x → (x.id == "las-curves-dgr") = false := by
    intro x hx
    rw [hx] at h5
    simp [build_graph_bat_id las x h5]
  rcases r2 with _ | x2 <;> rcases r3 with _ | x3 <;> rcases r4 with _ | x4 <;>
    rcases r5 with _ | x5 <;> simp_all [List.countP_cons]

theorem build_charts_count_ald (las : Log α) (g : Graph α)
    (h : build_graph_ald las = .ok (some g)) :
    ∃ cs, build_charts las = .ok cs ∧ cs.countP (fun x => x.id == "las-curves-ald") = 1 := by
  obtain ⟨r1, h1⟩ := build_graph_dgr_ok las
  obtain ⟨r2, h2⟩ := build_graph_rp_ok las
  obtain ⟨r4, h4⟩ := build_graph_ctn_ok las
  obtain ⟨r5, h5⟩ := build_graph_bat_ok las
  refine ⟨_, build_charts_eq las r1 r2 (some g) r4 r5 h1 h2 h h4 h5, ?_⟩
  have hg : (g.id == "las-curves-ald") = true := by
    simp [build_graph_ald_id las g h]
  have n1 : ∀ x, r1 = some x → (x.id == "las-curves-ald") = false := by
    intro x hx
    rw [hx] at h1
    simp [build_graph_dgr_id las x h1]
  have n2 : ∀ x, r2 = some x → (x.id == "las-curves-ald") = false := by
    intro x hx
    rw [hx] at h2
    simp [build_graph_rp_id las x h2]
  have n4 : ∀ x, r4 = some x → (x.id == "las-curves-ald") = false := by
    intro x hx
    rw [hx] at h4
    simp [build_graph_ctn_id las x h4]
  have n5 : ∀ x, r5 = some x → (x.id == "las-curves-ald") = false := by
    intro x hx
    rw [hx] at h5
    simp [build_graph_bat_id las x h5]
  rcases r1 with _ | x1 <;> rcases r2 with _ | x2 <;> rcases r4 with _ | x4 <;>
    rcases r5 with _ | x5 <;> simp_all [List.countP_cons]

theorem build_charts_count_bat (las : Log α) (g : Graph α)
    (h : build_graph_bat las = .ok (some g)) :
    ∃ cs, build_charts las = .ok cs ∧ cs.countP (fun x => x.id == "las-curves-bat") = 1 := by
  obtain ⟨r1, h1⟩ := build_graph_dgr_ok las
  obtain ⟨r2, h2⟩ := build_graph_rp_ok las
  obtain ⟨r3, h3⟩ := build_graph_ald_ok las
  obtain ⟨r4, h4⟩ := build_graph_ctn_ok las
  refine ⟨_, build_charts_eq las r1 r2 r3 r4 (some g) h1 h2 h3 h4 h, ?_⟩
  have hg : (g.id == "las-curves-bat") = true := by
    simp [build_graph_bat_id las g h]
  have n1 : ∀ x, r1 = some x → (x.id == "las-curves-bat") = false := by
    intro x hx
    rw [hx] at h1
    simp [build_graph_dgr_id las x h1]
  have n2 : ∀ x, r2 = some x → (x.id == "las-curves-bat") = false := by
    intro x hx
    rw [hx] at h2
    simp [build_graph_rp_id las x h2]
  have n3 : ∀ x, r3 = some x → (x.id == "las-curves-bat") = false := by
    intro x hx
    rw [hx] at h3
    simp [build_graph_ald_id las x h3]
  have n4 : ∀ x, r4 = some x → (x.id == "las-curves-bat") = false := by
    intro x hx
    rw [hx] at h4
    simp [build_graph_ctn_id las x h4]
  rcases r1 with _ | x1 <;> rcases r2 with _ | x2 <;> rcases r3 with _ | x3 <;>
    rcases r4 with _ | x4 <;> simp_all [List.countP_cons]

/-!
## The claims
-/

/-- Claim C1, counterexample: on the log holding both `BTVPVS` and `DGRC`,
the produced gamma/porosity chart marks the *primary* axis right-side with
gridlines suppressed, while the *secondary* axis spec carries no side and
no gridline key — the opposite of the claimed marking. -/
theorem claim1_counterexample :
    (build_graph_dgr logBoth).map (Option.map (fun g =>
      (g.yaxis.map Axis.side, g.yaxis.map Axis.showgrid,
       g.yaxis2.map Axis.side, g.yaxis2.map Axis.showgrid))) =
      .ok (some (some (some "right"), some (some false), some none, some none)) := by
  rfl

/-- Claim C1 (amended): for every curve set containing both candidates of a
two-curve group (gamma/porosity, density or sonic), exactly one chart is
emitted for that group, carrying one primary and one secondary axis; the
*primary* axis spec is the one marked right-side with gridlines
suppressed (the secondary is drawn on top of it), while the secondary
axis spec carries no side or gridline marking. -/
theorem claim1_both_axes_marking (las : Log α) :
    (∀ b d, las.find? "BTVPVS" = some b → las.find? "DGRC" = some d →
      ∃ g, build_graph_dgr las = .ok (some g) ∧
        g.data.map Trace.yaxisKey = ["y", "y2"] ∧
        (∃ pa, g.yaxis = some pa ∧ pa.side = some "right" ∧ pa.showgrid = some false) ∧
        (∃ sa, g.yaxis2 = some sa ∧ sa.side = none ∧ sa.showgrid = none) ∧
        (∃ cs, build_charts las = .ok cs ∧
          cs.countP (fun x => x.id == "las-curves-dgr") = 1)) ∧
    (∀ a c, las.find? "ALDCLC" = some a → las.find? "ALCDLC" = some c →
      ∃ g, build_graph_ald las = .ok (some g) ∧
        g.data.map Trace.yaxisKey = ["y", "y2"] ∧
        (∃ pa, g.yaxis = some pa ∧ pa.side = some "right" ∧ pa.showgrid = some false) ∧
        (∃ sa, g.yaxis2 = some sa ∧ sa.side = none ∧ sa.showgrid = none) ∧
        (∃ cs, build_charts las = .ok cs ∧
          cs.countP (fun x => x.id == "las-curves-ald") = 1)) ∧
    (∀ s c, las.find? "BTCSS" = some s → las.find? "BTCS" = some c →
      ∃ g, build_graph_bat las = .ok (some g) ∧
        g.data.map Trace.yaxisKey = ["y", "y2"] ∧
        (∃ pa, g.yaxis = some pa ∧ pa.side = some "right" ∧ pa.showgrid = some false) ∧
        (∃ sa, g.yaxis2 = some sa ∧ sa.side = none ∧ sa.showgrid = none) ∧
        (∃ cs, build_charts las = .ok cs ∧
          cs.countP (fun x => x.id == "las-curves-bat") = 1)) := by
  refine ⟨?_, ?_, ?_⟩
  · intro b d hB hD
    refine ⟨_, build_graph_dgr_both las b d hB hD, rfl, ⟨_, rfl, rfl, rfl⟩,
      ⟨_, rfl, rfl, rfl⟩, ?_⟩
    exact build_charts_count_dgr las _ (build_graph_dgr_both las b d hB hD)
  · intro a c hA hC
    refine ⟨_, build_graph_ald_both las a c hA hC, rfl, ⟨_, rfl, rfl, rfl⟩,
      ⟨_, rfl, rfl, rfl⟩, ?_⟩
    exact build_charts_count_ald las _ (build_graph_ald_both las a c hA hC)
  · intro s c hS hC
    refine ⟨_, build_graph_bat_both las s c hS hC, rfl, ⟨_, rfl, rfl, rfl⟩,
      ⟨_, rfl, rfl, rfl⟩, ?_⟩
    exact build_charts_count_bat las _ (build_graph_bat_both las s c hS hC)

/-- Witness for the amended claim C1, at the concrete log holding both
candidates of each two-curve group. -/
theorem claim1_witness :
    logPairs.find? "BTVPVS" = some (mkCurve "BTVPVS" "ft") ∧
    logPairs.find? "DGRC" = some (mkCurve "DGRC" "gAPI") ∧
    (∃ g, build_graph_dgr logPairs = .ok (some g) ∧
      g.data.map Trace.yaxisKey = ["y", "y2"] ∧
      (∃ pa, g.yaxis = some pa ∧ pa.side = some "right" ∧ pa.showgrid = some false) ∧
      (∃ sa, g.yaxis2 = some sa ∧ sa.side = none ∧ sa.showgrid = none) ∧
      (∃ cs, build_charts logPairs = .ok cs ∧
        cs.countP (fun x => x.id == "las-curves-dgr") = 1)) :=
  ⟨rfl, rfl,
    (claim1_both_axes_marking logPairs).1 (mkCurve "BTVPVS" "ft") (mkCurve "DGRC" "gAPI") rfl rfl⟩

/-- Claim C3: for every curve set containing only the secondary candidate
of a two-curve group (its primary candidate absent), the secondary
candidate's curve is promoted onto the primary axis slot (its trace
references axis "y" and its own axis spec becomes the chart's primary
axis), and the chart has no secondary axis. -/
theorem claim3_secondary_promoted (las : Log α) :
    (∀ d, las.find? "BTVPVS" = none → las.find? "DGRC" = some d →
      ∃ g, build_graph_dgr las = .ok (some g) ∧
        g.yaxis = some (build_trace d SCATTER_LINE_LINE_GREEN "y").2 ∧
        g.yaxis2 = none ∧ g.data.map Trace.yaxisKey = ["y"]) ∧
    (∀ c, las.find? "ALDCLC" = none → las.find? "ALCDLC" = some c →
      ∃ g, build_graph_ald las = .ok (some g) ∧
        g.yaxis = some (build_trace c SCATTER_LINE_LINE_RED "y").2 ∧
        g.yaxis2 = none ∧ g.data.map Trace.yaxisKey = ["y"]) ∧
    (∀ c, las.find? "BTCSS" = none → las.find? "BTCS" = some c →
      ∃ g, build_graph_bat las = .ok (some g) ∧
        g.yaxis = some (build_trace c SCATTER_LINE_LINE_GREEN "y").2 ∧
        g.yaxis2 = none ∧ g.data.map Trace.yaxisKey = ["y"]) := by
  refine ⟨?_, ?_, ?_⟩
  · intro d hB hD
    exact ⟨_, build_graph_dgr_promoted las d hB hD, rfl, rfl, rfl⟩
  · intro c hA hC
    exact ⟨_, build_graph_ald_promoted las c hA hC, rfl, rfl, rfl⟩
  · intro c hS hC
    exact ⟨_, build_graph_bat_promoted las c hS hC, rfl, rfl, rfl⟩

/-- Witness for claim C3, at the concrete log holding only the secondary
candidate of each two-curve group. -/
theorem claim3_witness :
    logPromoted.find? "BTVPVS" = none ∧
    logPromoted.find? "DGRC" = some (mkCurve "DGRC" "gAPI") ∧
    (∃ g, build_graph_dgr logPromoted = .ok (some g) ∧
      g.yaxis = some (build_trace (mkCurve "DGRC" "gAPI") SCATTER_LINE_LINE_GREEN "y").2 ∧
      g.yaxis2 = none ∧ g.data.map Trace.yaxisKey = ["y"]) :=
  ⟨rfl, rfl, (claim3_secondary_promoted logPromoted).1 (mkCurve "DGRC" "gAPI") rfl rfl⟩

/-- Claim C6: the axis title produced by `build_trace` for a curve is the
curve's mnemonic followed by " [unit]" when the unit differs from the
sentinel "NONE", and the bare mnemonic when the unit is exactly "NONE". -/
theorem claim6_axis_title (curve : Curve α) (line : Line) (yk : String) :
    (curve.unit = "NONE" →
      ((build_trace curve line yk).2).title = some curve.original_mnemonic) ∧
    (curve.unit ≠ "NONE" →
      ((build_trace curve line yk).2).title =
        some (curve.original_mnemonic ++ " [" ++ curve.unit ++ "]")) := by
  constructor
  · intro h
    simp [build_trace, h]
  · intro h
    simp [build_trace, h, String.append_assoc]

/-- Witness for claim C6: a unit-carrying curve gets the bracketed suffix,
a "NONE"-unit curve does not. -/
theorem claim6_witness :
    ((mkCurve "DGRC" "gAPI").unit ≠ "NONE" ∧
      ((build_trace (mkCurve "DGRC" "gAPI") SCATTER_LINE_LINE_GREEN "y").2).title =
        some "DGRC [gAPI]") ∧
    ((mkCurve "TNPS" "NONE").unit = "NONE" ∧
      ((build_trace (mkCurve "TNPS" "NONE") SCATTER_LINE_LINE_BLUE "y").2).title =
        some "TNPS") :=
  ⟨⟨by decide,
    ((claim6_axis_title (mkCurve "DGRC" "gAPI") SCATTER_LINE_LINE_GREEN "y").2
      (by decide)).trans (by decide)⟩,
   ⟨rfl, (claim6_axis_title (mkCurve "TNPS" "NONE") SCATTER_LINE_LINE_BLUE "y").1 rfl⟩⟩

/-- The loop's presence flag over the four declared keys is exactly
`rpAnyPresent`. -/
theorem rp_loop_any (las : Log α) :
    (rp_keys_lines.any fun kl => ((las.find? kl.1).isSome : Bool)) = rpAnyPresent las := by
  simp [rp_keys_lines, rpAnyPresent, Bool.or_assoc]

/-- The resistivity loop, on its declared key/style table, returns the
collected traces together with the presence flag. -/
theorem build_graph_rp_loop_rp (las : Log α) (b : Bool) :
    build_graph_rp_loop las b rp_keys_lines = (rpTraces las b, rpAnyPresent las) := by
  rw [build_graph_rp_loop_eq, rp_loop_any las]
  rfl

theorem rpTraces_eq_nil_iff (las : Log α) (b : Bool) :
    rpTraces las b = [] ↔ rpAnyPresent las = false := by
  unfold rpTraces
  rw [List.filterMap_eq_nil_iff]
  simp [rp_keys_lines, rpAnyPresent, Option.map_eq_none']
  tauto

/-- Every collected resistivity trace references the one shared y-axis. -/
theorem rpTraces_mem_yaxisKey (las : Log α) (b : Bool) (t : Trace α)
    (ht : t ∈ rpTraces las b) : t.yaxisKey = if b then "y2" else "y" := by
  unfold rpTraces at ht
  rw [List.mem_filterMap] at ht
  obtain ⟨kl, _, hkl⟩ := ht
  rw [Option.map_eq_some'] at hkl
  obtain ⟨c, _, hc⟩ := hkl
  rw [← hc]
  rfl

/-- The resistivity chart is skipped when neither `EWXT` nor any `RxxP`
curve is present. -/
theorem build_graph_rp_none (las : Log α) (hE : las.find? "EWXT" = none)
    (hA : rpAnyPresent las = false) : build_graph_rp las = .ok none := by
  rw [build_graph_rp_eq_of_none las hE]
  simp only [build_graph_rp_loop_rp, hA, Bool.false_eq_true, if_false]
  rw [(rpTraces_eq_nil_iff las false).mpr hA]
  exact build_graph_nil _ _ _ _

/-- With `EWXT` absent and some `RxxP` present, the shared resistivity
axis is promoted to the primary slot and no secondary axis exists. -/
theorem build_graph_rp_promoted (las : Log α) (hE : las.find? "EWXT" = none)
    (hA : rpAnyPresent las = true) :
    build_graph_rp las =
      .ok (some
        { id := "las-curves-rp",
          data := (rpTraces las false).map (fun tr => { tr with x := some las.depth_ft }),
          xaxis := { title := some "depth [ft]" },
          yaxis := some rp_axis,
          yaxis2 := none }) := by
  rw [build_graph_rp_eq_of_none las hE]
  simp only [build_graph_rp_loop_rp, hA, if_pos]
  rcases hts : rpTraces las false with _ | ⟨t, ts⟩
  · exact absurd ((rpTraces_eq_nil_iff las false).mp hts) (by simp [hA])
  · rw [build_graph_cons_noy2]

/-- With `EWXT` present it always occupies the primary axis (log scale);
the shared resistivity axis, when populated, is the secondary one. -/
theorem build_graph_rp_with_ewxt (las : Log α) (c : Curve α)
    (hE : las.find? "EWXT" = some c) :
    (rpAnyPresent las = true →
      build_graph_rp las =
        .ok (some
          { id := "las-curves-rp",
            data := ((build_trace c SCATTER_LINE_DASHDOT_MAGENTA "y").1 :: rpTraces las true).map
              (fun tr => { tr with x := some las.depth_ft }),
            xaxis := { title := some "depth [ft]" },
            yaxis := some { (build_trace c SCATTER_LINE_DASHDOT_MAGENTA "y").2 with
              axisType := some "log", side := some "right", showgrid := some false },
            yaxis2 := some rp_axis })) ∧
    (rpAnyPresent las = false →
      build_graph_rp las =
        .ok (some
          { id := "las-curves-rp",
            data := [{ (build_trace c SCATTER_LINE_DASHDOT_MAGENTA "y").1 with
              x := some las.depth_ft }],
            xaxis := { title := some "depth [ft]" },
            yaxis := some { (build_trace c SCATTER_LINE_DASHDOT_MAGENTA "y").2 with
              axisType := some "log" },
            yaxis2 := none })) := by
  constructor
  · intro hA
    rw [build_graph_rp_eq_of_some las c hE]
    simp only [build_graph_rp_loop_rp, hA, if_pos]
    rw [build_graph_cons_y2]
  · intro hA
    rw [build_graph_rp_eq_of_some las c hE]
    simp only [build_graph_rp_loop_rp, hA, Bool.false_eq_true, if_false]
    rw [(rpTraces_eq_nil_iff las true).mpr hA, build_graph_cons_noy2]
    rfl

/-!
## Chart-iff-candidate lemmas
-/

theorem build_graph_dgr_some_iff (las : Log α) :
    (∃ g, build_graph_dgr las = .ok (some g)) ↔
      ((las.find? "BTVPVS").isSome = true ∨ (las.find? "DGRC").isSome = true) := by
  cases hB : las.find? "BTVPVS" with
  | none =>
    cases hD : las.find? "DGRC" with
    | none => simp [build_graph_dgr_none las hB hD, hB, hD]
    | some d => simp [build_graph_dgr_promoted las d hB hD, hB, hD]
  | some b =>
    cases hD : las.find? "DGRC" with
    | none => simp [build_graph_dgr_primary_only las b hB hD, hB, hD]
    | some d => simp [build_graph_dgr_both las b d hB hD, hB, hD]

theorem build_graph_rp_some_iff (las : Log α) :
    (∃ g, build_graph_rp las = .ok (some g)) ↔
      ((las.find? "EWXT").isSome = true ∨ rpAnyPresent las = true) := by
  cases hE : las.find? "EWXT" with
  | some c =>
    obtain ⟨hT, hF⟩ := build_graph_rp_with_ewxt las c hE
    cases hA : rpAnyPresent las with
    | true => simp [hT hA, hE]
    | false => simp [hF hA, hE]
  | none =>
    cases hA : rpAnyPresent las with
    | true => simp [build_graph_rp_promoted las hE hA, hE, hA]
    | false => simp [build_graph_rp_none las hE hA, hE, hA]

theorem build_graph_ald_some_iff (las : Log α) :
    (∃ g, build_graph_ald las = .ok (some g)) ↔
      ((las.find? "ALDCLC").isSome = true ∨ (las.find? "ALCDLC").isSome = true) := by
  cases hA : las.find? "ALDCLC" with
  | none =>
    cases hC : las.find? "ALCDLC" with
    | none => simp [build_graph_ald_none las hA hC, hA, hC]
    | some c => simp [build_graph_ald_promoted las c hA hC, hA, hC]
  | some a =>
    cases hC : las.find? "ALCDLC" with
    | none => simp [build_graph_ald_primary_only las a hA hC, hA, hC]
    | some c => simp [build_graph_ald_both las a c hA hC, hA, hC]

theorem build_graph_ctn_some_iff (las : Log α) :
    (∃ g, build_graph_ctn las = .ok (some g)) ↔ (las.find? "TNPS").isSome = true := by
  cases hT : las.find? "TNPS" with
  | none => simp [build_graph_ctn_none las hT, hT]
  | some t => simp [build_graph_ctn_some las t hT, hT]

theorem build_graph_bat_some_iff (las : Log α) :
    (∃ g, build_graph_bat las = .ok (some g)) ↔
      ((las.find? "BTCSS").isSome = true ∨ (las.find? "BTCS").isSome = true) := by
  cases hS : las.find? "BTCSS" with
  | none =>
    cases hC : las.find? "BTCS" with
    | none => simp [build_graph_bat_none las hS hC, hS, hC]
    | some c => simp [build_graph_bat_promoted las c hS hC, hS, hC]
  | some s =>
    cases hC : las.find? "BTCS" with
    | none => simp [build_graph_bat_primary_only las s hS hC, hS, hC]
    | some c => simp [build_graph_bat_both las s c hS hC, hS, hC]

/-- Claim C2: each of the five fixed groups produces a chart iff at least
one of its candidate mnemonics is present; absent curves are skipped
(each produced chart holds exactly one trace per present candidate,
never a substitute), and a completely curve-less log yields zero
charts. -/
theorem claim2_chart_iff_candidate (las : Log α) :
    ((∃ g, build_graph_dgr las = .ok (some g)) ↔
      ((las.find? "BTVPVS").isSome = true ∨ (las.find? "DGRC").isSome = true)) ∧
    ((∃ g, build_graph_rp las = .ok (some g)) ↔
      ((las.find? "EWXT").isSome = true ∨ rpAnyPresent las = true)) ∧
    ((∃ g, build_graph_ald las = .ok (some g)) ↔
      ((las.find? "ALDCLC").isSome = true ∨ (las.find? "ALCDLC").isSome = true)) ∧
    ((∃ g, build_graph_ctn las = .ok (some g)) ↔ (las.find? "TNPS").isSome = true) ∧
    ((∃ g, build_graph_bat las = .ok (some g)) ↔
      ((las.find? "BTCSS").isSome = true ∨ (las.find? "BTCS").isSome = true)) ∧
    (∀ g, build_graph_dgr las = .ok (some g) →
      g.data.length = (if (las.find? "BTVPVS").isSome then 1 else 0) +
        (if (las.find? "DGRC").isSome then 1 else 0)) ∧
    (∀ g, build_graph_rp las = .ok (some g) →
      g.data.length = (if (las.find? "EWXT").isSome then 1 else 0) +
        (rpTraces las (las.find? "EWXT").isSome).length) ∧
    (∀ g, build_graph_ald las = .ok (some g) →
      g.data.length = (if (las.find? "ALDCLC").isSome then 1 else 0) +
        (if (las.find? "ALCDLC").isSome then 1 else 0)) ∧
    (∀ g, build_graph_ctn las = .ok (some g) → g.data.length = 1) ∧
    (∀ g, build_graph_bat las = .ok (some g) →
      g.data.length = (if (las.find? "BTCSS").isSome then 1 else 0) +
        (if (las.find? "BTCS").isSome then 1 else 0)) ∧
    (las.curves = [] → build_charts las = .ok [] ∧ build_section_curves las = .ok []) := by
  refine ⟨build_graph_dgr_some_iff las, build_graph_rp_some_iff las,
    build_graph_ald_some_iff las, build_graph_ctn_some_iff las,
    build_graph_bat_some_iff las, ?_, ?_, ?_, ?_, ?_, ?_⟩
  · intro g hg
    cases hB : las.find? "BTVPVS" with
    | none =>
      cases hD : las.find? "DGRC" with
      | none =>
        rw [build_graph_dgr_none las hB hD] at hg
        simp at hg
      | some d =>
        rw [build_graph_dgr_promoted las d hB hD] at hg
        simp only [Except.ok.injEq, Option.some.injEq] at hg
        subst hg
        simp [hB, hD]
    | some b =>
      cases hD : las.find? "DGRC" with
      | none =>
        rw [build_graph_dgr_primary_only las b hB hD] at hg
        simp only [Except.ok.injEq, Option.some.injEq] at hg
        subst hg
        simp [hB, hD]
      | some d =>
        rw [build_graph_dgr_both las b d hB hD] at hg
        simp only [Except.ok.injEq, Option.some.injEq] at hg
        subst hg
        simp [hB, hD]
  · intro g hg
    cases hE : las.find? "EWXT" with
    | none =>
      cases hA : rpAnyPresent las with
      | false =>
        rw [build_graph_rp_none las hE hA] at hg
        simp at hg
      | true =>
        rw [build_graph_rp_promoted las hE hA] at hg
        simp only [Except.ok.injEq, Option.some.injEq] at hg
        subst hg
        simp [hE]
    | some c =>
      obtain ⟨hT, hF⟩ := build_graph_rp_with_ewxt las c hE
      cases hA : rpAnyPresent las with
      | true =>
        rw [hT hA] at hg
        simp only [Except.ok.injEq, Option.some.injEq] at hg
        subst hg
        simp [hE]
        omega
      | false =>
        rw [hF hA] at hg
        simp only [Except.ok.injEq, Option.some.injEq] at hg
        subst hg
        simp [hE, (rpTraces_eq_nil_iff las true).mpr hA]
  · intro g hg
    cases hA : las.find? "ALDCLC" with
    | none =>
      cases hC : las.find? "ALCDLC" with
      | none =>
        rw [build_graph_ald_none las hA hC] at hg
        simp at hg
      | some c =>
        rw [build_graph_ald_promoted las c hA hC] at hg
        simp only [Except.ok.injEq, Option.some.injEq] at hg
        subst hg
        simp [hA, hC]
    | some a =>
      cases hC : las.find? "ALCDLC" with
      | none =>
        rw [build_graph_ald_primary_only las a hA hC] at hg
        simp only [Except.ok.injEq, Option.some.injEq] at hg
        subst hg
        simp [hA, hC]
      | some c =>
        rw [build_graph_ald_both las a c hA hC] at hg
        simp only [Except.ok.injEq, Option.some.injEq] at hg
        subst hg
        simp [hA, hC]
  · intro g hg
    cases hT : las.find? "TNPS" with
    | none =>
      rw [build_graph_ctn_none las hT] at hg
      simp at hg
    | some t =>
      rw [build_graph_ctn_some las t hT] at hg
      simp only [Except.ok.injEq, Option.some.injEq] at hg
      subst hg
      simp
  · intro g hg
    cases hS : las.find? "BTCSS" with
    | none =>
      cases hC : las.find? "BTCS" with
      | none =>
        rw [build_graph_bat_none las hS hC] at hg
        simp at hg
      | some c =>
        rw [build_graph_bat_promoted las c hS hC] at hg
        simp only [Except.ok.injEq, Option.some.injEq] at hg
        subst hg
        simp [hS, hC]
    | some s =>
      cases hC : las.find? "BTCS" with
      | none =>
        rw [build_graph_bat_primary_only las s hS hC] at hg
        simp only [Except.ok.injEq, Option.some.injEq] at hg
        subst hg
        simp [hS, hC]
      | some c =>
        rw [build_graph_bat_both las s c hS hC] at hg
        simp only [Except.ok.injEq, Option.some.injEq] at hg
        subst hg
        simp [hS, hC]
  · intro h0
    have hf : ∀ m, las.find? m = none := by
      intro m
      simp [Log.find?, h0]
    have hA : rpAnyPresent las = false := by
      simp [rpAnyPresent, hf]
    have hc := build_charts_eq las none none none none none
      (build_graph_dgr_none las (hf _) (hf _)) (build_graph_rp_none las (hf _) hA)
      (build_graph_ald_none las (hf _) (hf _)) (build_graph_ctn_none las (hf _))
      (build_graph_bat_none las (hf _) (hf _))
    have hc0 : build_charts las = .ok [] := by simpa using hc
    exact ⟨hc0, by simpa using build_section_curves_eq las [] hc0⟩

/-- Witness for claim C2: the completely curve-less log yields zero
charts and zero pages. -/
theorem claim2_witness :
    logEmpty.curves = [] ∧
    (build_charts logEmpty = .ok [] ∧ build_section_curves logEmpty = .ok []) :=
  ⟨rfl, (claim2_chart_iff_candidate logEmpty).2.2.2.2.2.2.2.2.2.2 rfl⟩

/-- Claim C4: a resistivity chart is produced iff `EWXT` or some of the
four `RxxP` curves is present; `EWXT`, when present, occupies the
primary axis with scale forced logarithmic; all present resistivity
curves share one log-scaled axis titled "RxxP [ohmm]" — secondary when
`EWXT` is present, otherwise promoted to the primary slot. -/
theorem claim4_resistivity_axes (las : Log α) :
    ((∃ g, build_graph_rp las = .ok (some g)) ↔
      ((las.find? "EWXT").isSome = true ∨ rpAnyPresent las = true)) ∧
    (∀ c, las.find? "EWXT" = some c →
      ∃ g, build_graph_rp las = .ok (some g) ∧
        g.data.head?.map Trace.yaxisKey = some "y" ∧
        (∃ a, g.yaxis = some a ∧ a.axisType = some "log") ∧
        (∀ t ∈ g.data.tail, t.yaxisKey = "y2") ∧
        (rpAnyPresent las = true → g.yaxis2 = some rp_axis) ∧
        (rpAnyPresent las = false → g.yaxis2 = none)) ∧
    (las.find? "EWXT" = none → rpAnyPresent las = true →
      ∃ g, build_graph_rp las = .ok (some g) ∧
        g.yaxis = some rp_axis ∧ g.yaxis2 = none ∧
        (∀ t ∈ g.data, t.yaxisKey = "y")) := by
  refine ⟨build_graph_rp_some_iff las, ?_, ?_⟩
  · intro c hE
    obtain ⟨hT, hF⟩ := build_graph_rp_with_ewxt las c hE
    cases hA : rpAnyPresent las with
    | true =>
      refine ⟨_, hT hA, rfl, ⟨_, rfl, rfl⟩, ?_, fun _ => rfl,
        fun hFa => by simp [hA] at hFa⟩
      intro t ht
      simp only [List.map_cons, List.tail_cons, List.mem_map] at ht
      obtain ⟨tr, htr, rfl⟩ := ht
      have hk := rpTraces_mem_yaxisKey las true tr htr
      simpa using hk
    | false =>
      refine ⟨_, hF hA, rfl, ⟨_, rfl, rfl⟩, ?_, fun hTa => by simp [hA] at hTa,
        fun _ => rfl⟩
      intro t ht
      simp at ht
  · intro hE hA
    refine ⟨_, build_graph_rp_promoted las hE hA, rfl, rfl, ?_⟩
    intro t ht
    simp only [List.mem_map] at ht
    obtain ⟨tr, htr, rfl⟩ := ht
    have hk := rpTraces_mem_yaxisKey las false tr htr
    simpa using hk

/-- Witness for claim C4 at a log holding `EWXT`, `R09P` and `R27P`. -/
theorem claim4_witness :
    logRp.find? "EWXT" = some (mkCurve "EWXT" "ohmm") ∧
    (∃ g, build_graph_rp logRp = .ok (some g) ∧
      g.data.head?.map Trace.yaxisKey = some "y" ∧
      (∃ a, g.yaxis = some a ∧ a.axisType = some "log") ∧
      (∀ t ∈ g.data.tail, t.yaxisKey = "y2") ∧
      (rpAnyPresent logRp = true → g.yaxis2 = some rp_axis) ∧
      (rpAnyPresent logRp = false → g.yaxis2 = none)) :=
  ⟨rfl, (claim4_resistivity_axes logRp).2.1 (mkCurve "EWXT" "ohmm") rfl⟩

/-- Claim C7: the curve-group resolution is total and deterministic — it
never returns an error on any log, and its output depends on the log
only through the mnemonic-lookup function and the depth column. -/
theorem claim7_total_and_deterministic (las las2 : Log α) :
    (∃ pages, build_section_curves las = .ok pages) ∧
    ((∀ m, las.find? m = las2.find? m) → las.depth_ft = las2.depth_ft →
      build_section_curves las = build_section_curves las2) := by
  constructor
  · obtain ⟨gs, h⟩ := build_charts_ok las
    exact ⟨_, build_section_curves_eq las gs h⟩
  · intro h hd
    exact build_section_curves_congr las las2 h hd

/-- Witness for claim C7 at the worked-example log. -/
theorem claim7_witness :
    (∃ pages, build_section_curves logC8 = .ok pages) ∧
    build_section_curves logC8 = build_section_curves logC8 :=
  ⟨(claim7_total_and_deterministic logC8 logC8).1,
   (claim7_total_and_deterministic logC8 logC8).2 (fun _ => rfl) rfl⟩

/-- Claim C8: the curve set `{BTVPVS, DGRC, TNPS}` yields exactly two
charts — the gamma/porosity chart with both axes populated and the
neutron chart with only a primary axis — while the resistivity, density
and sonic groups produce no chart. -/
theorem claim8_worked_example :
    (build_charts logC8).map (fun l => l.map (fun g => (g.id, g.yaxis.isSome, g.yaxis2.isSome))) =
      .ok [("las-curves-dgr", true, true), ("las-curves-ctn", true, false)] ∧
    build_graph_rp logC8 = .ok none ∧
    build_graph_ald logC8 = .ok none ∧
    build_graph_bat logC8 = .ok none := by
  refine ⟨rfl, rfl, rfl, rfl⟩

/-- Claim C5: for every page size `n ≥ 1`, `paginate` maps the empty list
to zero pages, yields `ceil(len/n)` pages, all of size exactly `n` except
a possibly shorter (but never empty) last page, concatenates back to the
input, and in particular 120 items at page size 50 give pages of sizes
50, 50 and 20. -/
theorem claim5_paginate_chunking (items : List γ) (n : Nat) (hn : 1 ≤ n) :
    paginate ([] : List γ) n = [] ∧
    (paginate items n).length = (items.length + n - 1) / n ∧
    (∀ c ∈ (paginate items n).dropLast, c.length = n) ∧
    (∀ c ∈ paginate items n, c.length ≤ n ∧ c ≠ []) ∧
    (paginate items n).flatten = items ∧
    (paginate (List.range 120) 50).map List.length = [50, 50, 20] := by
  refine ⟨rfl, paginate_length items n hn, ?_, ?_, paginate_flatten items n, ?_⟩
  · exact fun c hc => paginateAux_dropLast n hn items [] (by simp) c hc
  · exact fun c hc => ⟨paginateAux_mem_le n hn items [] (by simp) c hc,
      paginateAux_mem_ne_nil n hn items [] c hc⟩
  · decide

/-- Witness for claim C5 at page size 2 over three items. -/
theorem claim5_witness :
    1 ≤ 2 ∧
    (paginate ([] : List Nat) 2 = [] ∧
     (paginate [10, 20, 30] 2).length = ([10, 20, 30].length + 2 - 1) / 2 ∧
     (∀ c ∈ (paginate [10, 20, 30] 2).dropLast, c.length = 2) ∧
     (∀ c ∈ paginate [10, 20, 30] 2, c.length ≤ 2 ∧ c ≠ []) ∧
     (paginate [10, 20, 30] 2).flatten = [10, 20, 30] ∧
     (paginate (List.range 120) 50).map List.length = [50, 50, 20]) :=
  ⟨by decide, claim5_paginate_chunking [10, 20, 30] 2 (by decide)⟩

/-- Claim C10: with `items_per_page = 0`, `paginate` on a non-empty input
returns a leading empty chunk followed by one singleton chunk per item,
so the no-empty-chunk guarantee only holds for page sizes of at least 1,
while the order-preserving concatenation round trip holds for every page
size including 0. -/
theorem claim10_paginate_zero_page_size (items : List γ) (n : Nat) :
    (items ≠ [] → paginate items 0 = [] :: items.map (fun i => [i])) ∧
    (1 ≤ n → ∀ c ∈ paginate items n, c ≠ []) ∧
    (paginate items n).flatten = items := by
  refine ⟨paginate_zero items, ?_, paginate_flatten items n⟩
  intro hn c hc
  exact paginateAux_mem_ne_nil n hn items [] c hc

/-- Witness for claim C10: a two-item list at page size 0 gains a leading
empty chunk, yet still concatenates back to the input. -/
theorem claim10_witness :
    ([1, 2] ≠ ([] : List Nat) ∧ paginate ([1, 2] : List Nat) 0 = [[], [1], [2]]) ∧
    (paginate ([1, 2] : List Nat) 0).flatten = [1, 2] :=
  ⟨⟨by decide, (claim10_paginate_zero_page_size [1, 2] 0).1 (by decide)⟩,
   (claim10_paginate_zero_page_size [1, 2] 0).2.2⟩

/-!
## Lemmas about the second revision's `generate_curves`
-/

/-- A successful `gcStep` requires both the column's curve and `DEPT`. -/
theorem gcStep_ok_present (lf : Log α) (rp : List String) (i : Nat) (fig fig2 : Fig2 α)
    (column : String) (h : gcStep lf rp i fig column = .ok fig2) :
    (lf.find? column).isSome = true ∧ (lf.find? "DEPT").isSome = true := by
  unfold gcStep at h
  cases hc : lf.find? column with
  | none =>
    rw [hc] at h
    exact absurd h (by simp)
  | some c =>
    rw [hc] at h
    cases hd : lf.find? "DEPT" with
    | none =>
      rw [hd] at h
      exact absurd h (by simp)
    | some yc =>
      simp [hc, hd]

/-- A successful inner loop requires every listed column, and `DEPT` as
soon as the column list is non-empty. -/
theorem gcInner_ok_present (lf : Log α) (rp : List String) (i : Nat) :
    ∀ (fig : Fig2 α) (l : List String) (fig2 : Fig2 α), gcInner lf rp i fig l = .ok fig2 →
      (∀ c ∈ l, (lf.find? c).isSome = true) ∧ (l ≠ [] → (lf.find? "DEPT").isSome = true) := by
  intro fig l
  induction l generalizing fig with
  | nil =>
    intro fig2 _
    exact ⟨by simp, fun hne => absurd rfl hne⟩
  | cons col rest ih =>
    intro fig2 h
    unfold gcInner at h
    cases hs : gcStep lf rp i fig col with
    | error e =>
      rw [hs] at h
      exact absurd h (by simp)
    | ok figm =>
      rw [hs] at h
      obtain ⟨h1, h2⟩ := gcStep_ok_present lf rp i fig figm col hs
      obtain ⟨hr, _⟩ := ih figm fig2 h
      refine ⟨?_, fun _ => h2⟩
      intro c hc
      rcases List.mem_cons.mp hc with rfl | hc2
      · exact h1
      · exact hr c hc2

/-- A successful outer loop requires every column of every plot (and
`DEPT` for every non-empty plot). -/
theorem gcOuter_ok_present (lf : Log α) (rp : List String) :
    ∀ (fig : Fig2 α) (ps : List (Nat × List String)) (fig2 : Fig2 α),
      gcOuter lf rp fig ps = .ok fig2 →
      ∀ pr ∈ ps, (∀ c ∈ pr.2, (lf.find? c).isSome = true) ∧
        (pr.2 ≠ [] → (lf.find? "DEPT").isSome = true) := by
  intro fig ps
  induction ps generalizing fig with
  | nil =>
    intro fig2 _ pr hpr
    simp at hpr
  | cons p rest ih =>
    rcases p with ⟨i, plot⟩
    intro fig2 h pr hpr
    unfold gcOuter at h
    cases hs : gcInner lf rp i fig plot with
    | error e =>
      rw [hs] at h
      exact absurd h (by simp)
    | ok figm =>
      rw [hs] at h
      rcases List.mem_cons.mp hpr with rfl | hpr2
      · exact gcInner_ok_present lf rp i fig plot figm hs
      · exact ih figm fig2 h pr hpr2

/-- A successful positional rewiring certifies the index is in range and
preserves the trace count. -/
theorem set_trace_xaxis_ok (data : List (Trace2 α)) (i : Nat) (k : String)
    (d2 : List (Trace2 α)) (h : set_trace_xaxis data i k = .ok d2) :
    i < data.length ∧ d2.length = data.length := by
  unfold set_trace_xaxis at h
  split at h
  · next hlt =>
    cases h
    exact ⟨hlt, by simp⟩
  · simp at h

theorem gcPlots_enum (lf : Log α) :
    (gcPlots lf).enum =
      [(0, ["BTVPVS", "DGRC"]), (1, gcRpCols lf), (2, ["ALCDLC", "ALDCLC"]),
       (3, ["TNPS"]), (4, ["BTCSS", "BTCS"])] := rfl

/-- A successful `generate_curves` run passed the whole double loop and
rewired the four fixed trace positions, so its figure holds at least 12
traces. -/
theorem generate_curves_ok_parts (lf : Log α) (f : Fig2 α) (h : generate_curves lf = .ok f) :
    (∃ fig, gcOuter lf (gcRpCols lf) (make_subplots (gcPlots lf).length)
      (gcPlots lf).enum = .ok fig) ∧ 12 ≤ f.data.length := by
  unfold generate_curves at h
  dsimp only at h
  cases hO : gcOuter lf (gcRpCols lf) (make_subplots (gcPlots lf).length)
      (gcPlots lf).enum with
  | error e =>
    rw [hO] at h
    exact absurd h (by simp)
  | ok fig =>
    rw [hO] at h
    refine ⟨⟨fig, rfl⟩, ?_⟩
    dsimp only at h
    cases h1 : set_trace_xaxis (α := α) fig.data 1 "x6" with
    | error e =>
      rw [h1] at h
      dsimp only at h
      exact absurd h (by simp)
    | ok d1 =>
      rw [h1] at h
      dsimp only at h
      cases h2 : set_trace_xaxis d1 6 "x7" with
      | error e =>
        rw [h2] at h
        dsimp only at h
        exact absurd h (by simp)
      | ok d2 =>
        rw [h2] at h
        dsimp only at h
        cases h3 : set_trace_xaxis d2 8 "x8" with
        | error e =>
          rw [h3] at h
          dsimp only at h
          exact absurd h (by simp)
        | ok d3 =>
          rw [h3] at h
          dsimp only at h
          cases h4 : set_trace_xaxis d3 11 "x9" with
          | error e =>
            rw [h4] at h
            dsimp only at h
            exact absurd h (by simp)
          | ok d4 =>
            rw [h4] at h
            dsimp only at h
            cases h
            obtain ⟨hlt4, hlen4⟩ := set_trace_xaxis_ok d3 11 "x9" d4 h4
            show 12 ≤ d4.length
            omega

/-- Claim C9: the second revision's `generate_curves` indexes the curves
by hard-coded mnemonics without membership tests and rewires traces at
fixed positions 1, 6, 8 and 11, so it is defined only for logs containing
every one of those mnemonics (and at least 12 produced traces); for any
log missing one of them it fails instead of skipping the absent curve. -/
theorem claim9_second_revision_requires_all (lf : Log α) :
    (∀ m ∈ generate_curves_required, lf.find? m = none →
      ∃ e, generate_curves lf = .error e) ∧
    (∀ f, generate_curves lf = .ok f →
      (∀ m ∈ generate_curves_required, (lf.find? m).isSome = true) ∧
        12 ≤ f.data.length) := by
  have key : ∀ f, generate_curves lf = .ok f →
      (∀ m ∈ generate_curves_required, (lf.find? m).isSome = true) ∧ 12 ≤ f.data.length := by
    intro f h
    obtain ⟨⟨fig, hO⟩, hlen⟩ := generate_curves_ok_parts lf f h
    have hP := gcOuter_ok_present lf (gcRpCols lf)
      (make_subplots (gcPlots lf).length) (gcPlots lf).enum fig hO
    rw [gcPlots_enum] at hP
    have h0 := hP (0, ["BTVPVS", "DGRC"]) (by simp)
    have h2 := hP (2, ["ALCDLC", "ALDCLC"]) (by simp)
    have h3p := hP (3, ["TNPS"]) (by simp)
    have h4p := hP (4, ["BTCSS", "BTCS"]) (by simp)
    refine ⟨?_, hlen⟩
    intro m hm
    simp only [generate_curves_required, List.mem_cons, List.not_mem_nil, or_false] at hm
    rcases hm with rfl | rfl | rfl | rfl | rfl | rfl | rfl | rfl
    · exact h0.1 _ (by simp)
    · exact h0.1 _ (by simp)
    · exact h2.1 _ (by simp)
    · exact h2.1 _ (by simp)
    · exact h3p.1 _ (by simp)
    · exact h4p.1 _ (by simp)
    · exact h4p.1 _ (by simp)
    · exact h0.2 (by simp)
  constructor
  · intro m hm hnone
    cases hgc : generate_curves lf with
    | error e => exact ⟨e, rfl⟩
    | ok f =>
      have hiss := (key f hgc).1 m hm
      rw [hnone] at hiss
      simp at hiss
  · exact key

/-- Witness for claim C9: the empty log misses `BTVPVS`, so the second
revision's curve generation raises instead of skipping it. -/
theorem claim9_witness :
    ("BTVPVS" ∈ generate_curves_required ∧ logEmpty.find? "BTVPVS" = none) ∧
    (∃ e, generate_curves logEmpty = .error e) :=
  ⟨⟨by decide, rfl⟩,
   (claim9_second_revision_requires_all logEmpty).1 "BTVPVS" (by decide) rfl⟩

end Lastodash
